import Mathlib

/-!
Verification of the resource-monitor program `monitor_process.py`.

The program launches a child process, then loops: while the child is alive it
samples CPU / memory via the output of `top -b -n 2 -d 0.2 -p PID`, counts open
file descriptors via `ls /proc/PID/fd`, appends one tab-separated row per tick
to a log file, and sleeps `interval - 0.2` seconds.

Text is modelled as `List Char` (`Str`); every Python string operation used by
the source (`split`, `replace`, `float`, `round`, `str`, dict assignment and
lookup) is given an executable model below.  External effects are modelled as
explicit inputs: each scheduler tick carries the values the OS would have
produced at that tick (`proc.poll()` result, the raw stdout of `top`, the raw
stdout of `ls`, the `time.asctime()` string), and the number of logical cores
(`os.cpu_count()`) is a parameter.  Exceptions are modelled by an `Option PyExc`
component: `none` means the code returned normally, `some e` means exception `e`
escaped.
-/

set_option maxRecDepth 40000

abbrev Str := List Char

/-- Helper for `pySplit`: accumulates the current field (reversed) while
scanning the characters. -/
def splitAux (c : Char) : List Char → List Char → List (List Char)
  | [], acc => [acc.reverse]
  | x :: xs, acc => if x = c then acc.reverse :: splitAux c xs [] else splitAux c xs (x :: acc)

/-- Python `s.split(c)` for a one-character separator: splits at every
occurrence of `c`, keeping empty fields (`''.split(c) = ['']`). -/
def pySplit (c : Char) (s : Str) : List Str := splitAux c s []

/-- Python `s.replace(a, b)` for one-character arguments. -/
def replaceChar (a b : Char) (s : Str) : Str := s.map (fun ch => if ch = a then b else ch)

/-- Numeric value of a digit string, most significant digit first. -/
def digitsToRat (ds : Str) : ℚ := ds.foldl (fun acc c => acc * 10 + ((c.toNat - 48 : ℕ) : ℚ)) 0

/-- Python `float(s)` on an unsigned decimal literal: digits with an optional
single `'.'` and optional fractional digits (`"12"`, `"12.5"`, `"12."`,
`".5"`).  Any other shape (empty string, stray letters such as `top`'s
`"1.5g"` unit suffixes, a comma decimal separator, a second dot) raises
`ValueError` in Python, modelled as `none`.  `top`'s VIRT/RES/%CPU columns
never carry exponents, `inf`/`nan`, underscores or surrounding whitespace, so
those accepted-by-Python shapes do not arise and are left out of the model. -/
def pyfloatUnsigned (s : Str) : Option ℚ :=
  let ip := s.takeWhile Char.isDigit
  let rest := s.dropWhile Char.isDigit
  match rest with
  | [] => if ip.isEmpty then none else some (digitsToRat ip)
  | '.' :: fp =>
      if fp.all Char.isDigit ∧ ¬(ip.isEmpty ∧ fp.isEmpty) then
        some (digitsToRat ip + digitsToRat fp / (10 : ℚ) ^ fp.length)
      else none
  | _ => none

/-- Python `float(s)`: optional sign followed by an unsigned decimal literal. -/
def pyfloat (s : Str) : Option ℚ :=
  match s with
  | '-' :: rest => (pyfloatUnsigned rest).map (fun q => -q)
  | '+' :: rest => pyfloatUnsigned rest
  | _ => pyfloatUnsigned s

/-- Python built-in `round` with one argument: round half to even, on exact
rationals. -/
def pyround (q : ℚ) : ℤ :=
  if q - ⌊q⌋ < 1/2 then ⌊q⌋
  else if (1/2 : ℚ) < q - ⌊q⌋ then ⌊q⌋ + 1
  else if ⌊q⌋ % 2 = 0 then ⌊q⌋ else ⌊q⌋ + 1

/-- Python `str(n)` for a natural number. -/
def natToStr (n : ℕ) : Str := Nat.toDigits 10 n

/-- Python `str(z)` for an integer. -/
def intToStr (z : ℤ) : Str := if z < 0 then '-' :: natToStr z.natAbs else natToStr z.natAbs

/-- Whether a Python dict (insertion-ordered association list with unique keys)
has the given key. -/
def pyDictHasKey : List (Str × Str) → Str → Bool
  | [], _ => false
  | p :: d, k => (p.1 = k) || pyDictHasKey d k

/-- Python `d[k] = v`: overwrite in place if the key exists, else append. -/
def pyDictSet (d : List (Str × Str)) (k v : Str) : List (Str × Str) :=
  if pyDictHasKey d k then d.map (fun p => if p.1 = k then (p.1, v) else p) else d ++ [(k, v)]

/-- Python `d[k]`, as an `Option` (a missing key raises `KeyError`). -/
def pyDictGet : List (Str × Str) → Str → Option Str
  | [], _ => none
  | p :: d, k => if p.1 = k then some p.2 else pyDictGet d k

/-- Python `lst[-3:-1]`: drop the final element, then keep the last two of the
remainder (clamped on short lists, exactly as Python slicing clamps). -/
def sliceLastTwo (l : List α) : List α := l.dropLast.drop (l.dropLast.length - 2)

/-- One output line split on single spaces with all empty tokens removed:
`stat = stat.split(' '); while '' in stat: stat.remove('')`. -/
def lineTokens (line : Str) : List Str := (pySplit ' ' line).filter (fun t => !t.isEmpty)

/-- The token list `res` of `_parse_top_stdout`: the concatenated tokens of
the last two lines (`stats.split('\n')[-3:-1]`) of the raw `top` output. -/
def resTokens (stdout : Str) : List Str :=
  (sliceLastTwo (pySplit '\n' stdout)).foldl (fun acc line => acc ++ lineTokens line) []

/-- `_parse_top_stdout`, given the raw stdout of
`top -b -n 2 -d 0.2 -p PID`: build `res`, then run
`for i in range(len(res) // 2): statistics[res[i]] = res[len(res) // 2 + i]`. -/
def _parse_top_stdout (stdout : Str) : List (Str × Str) :=
  let res := resTokens stdout
  (List.range (res.length / 2)).foldl
    (fun d i => pyDictSet d (res.getD i []) (res.getD (res.length / 2 + i) [])) []

/-- Transcription of claim C10's description of the mapping: the pairs
`res[i] -> res[len(res) // 2 + i]` for `i < len(res) // 2`, in order. -/
def claimPairs (res : List Str) : List (Str × Str) :=
  (List.range (res.length / 2)).map (fun i => (res.getD i [], res.getD (res.length / 2 + i) []))

/-- Last-wins lookup in a pair list: the value of the last pair whose key
matches (Python dict assignment semantics for repeated keys). -/
def dictLastLookup : List (Str × Str) → Str → Option Str
  | [], _ => none
  | p :: ps, k =>
      match dictLastLookup ps k with
      | some v => some v
      | none => if p.1 = k then some p.2 else none

/-- The value `float(stats['VIRT'])` of `get_cpu_and_memory`, as an `Option`
(`KeyError` on a missing key, `ValueError` on an unparsable string). -/
def virtValue (stdout : Str) : Option ℚ := (pyDictGet (_parse_top_stdout stdout) "VIRT".toList).bind pyfloat

/-- The value `float(stats['RES'])` of `get_cpu_and_memory`. -/
def resValue (stdout : Str) : Option ℚ := (pyDictGet (_parse_top_stdout stdout) "RES".toList).bind pyfloat

/-- The value `float(stats['%CPU'].replace(',', '.'))` of `get_cpu_and_memory`:
the comma decimal separator is normalized to `'.'` before parsing. -/
def cpuValue (stdout : Str) : Option ℚ :=
  ((pyDictGet (_parse_top_stdout stdout) "%CPU".toList).map (replaceChar ',' '.')).bind pyfloat

/-- The three integers `vms, rss, cpu` computed by `get_cpu_and_memory`:
`round(float(stats['VIRT']) / 1024)`, `round(float(stats['RES']) / 1024)`,
`round(float(stats['%CPU'].replace(',', '.')) / os.cpu_count())`.  `none`
models an escaping `KeyError`/`ValueError` (and the error Python would raise
were `os.cpu_count()` unusable). -/
def cpuMemValues (stdout : Str) (ncores : ℕ) : Option (ℤ × ℤ × ℤ) :=
  if ncores = 0 then none
  else
    match virtValue stdout, resValue stdout, cpuValue stdout with
    | some v, some r, some c =>
        some (pyround (v / 1024), pyround (r / 1024), pyround (c / (ncores : ℚ)))
    | _, _, _ => none

/-- `get_cpu_and_memory`: `return [str(stat) for stat in [vms, rss, cpu]]`. -/
def get_cpu_and_memory (stdout : Str) (ncores : ℕ) : Option (List Str) :=
  (cpuMemValues stdout ncores).map (fun t => [intToStr t.1, intToStr t.2.1, intToStr t.2.2])

/-- `get_fd_count`, given the raw stdout of `ls /proc/PID/fd`: the number of
non-empty lines (`len([n for n in fd.split('\n') if n != ''])`).
`subprocess.run` without `check=True` never raises on a failing `ls`, whose
stdout is then empty, so this is a total function of the captured stdout. -/
def get_fd_count (lsOut : Str) : ℕ := ((pySplit '\n' lsOut).filter (fun t => !t.isEmpty)).length

/-- The stdout `ls` produces for a readable fd directory: one entry per line,
each line newline-terminated. -/
def fdListing (entries : List Str) : Str := (entries.map (fun e => e ++ ['\n'])).flatten

/-- The argument of `time.sleep` in `log_statistics`: `interval - 0.2`. -/
def sleepArg (interval : ℚ) : ℚ := interval - 0.2

/-- Python exceptions that can escape the modelled code paths. -/
inductive PyExc
  /-- `subprocess.Popen(proc_name)` failed: path invalid or not executable. -/
  | launchError
  /-- `KeyError`/`ValueError` escaping `get_cpu_and_memory`. -/
  | sampleError
  /-- `NameError` from `file.write` with no module-level `file` bound. -/
  | nameError
  /-- `ValueError` from `time.sleep` on a negative argument. -/
  | sleepValueError
deriving DecidableEq

/-- The OS-supplied values one iteration of the scheduler loop observes. -/
structure Tick where
  /-- Result of `proc.poll()`: `none` while running, `some exitcode` after. -/
  poll : Option ℤ
  /-- Raw stdout of `top -b -n 2 -d 0.2 -p PID` at this tick. -/
  topOut : Str
  /-- Raw stdout of `ls /proc/PID/fd` at this tick. -/
  fdOut : Str
  /-- `time.asctime()` at this tick. -/
  time : Str

/-- Fields joined by `'\t'.join`. -/
def joinTabs (fields : List Str) : Str := List.intercalate ['\t'] fields

/-- The row `'\t'.join(stats)` written for one tick:
`[time.asctime()] + get_cpu_and_memory(proc) + [str(get_fd_count(proc))]`. -/
def sample_row (t : Tick) (cm : List Str) : Str :=
  joinTabs ([t.time] ++ cm ++ [natToStr (get_fd_count t.fdOut)])

/-- `log_statistics(proc, interval)` over an explicit trace of ticks.
`fileBound` records whether a module-level writable `file` is bound (the
`with open(...) as file:` blocks of `__main__` bind it; a bare call does not).
Returns the lines written (each written with a trailing `'\n'`) and the
exception that escaped, if any.  Per iteration, in source order: check
`proc.poll() == None`; build the row (a `KeyError` from `get_cpu_and_memory`
escapes here); `file.write` (a `NameError` escapes here if `file` is unbound);
`time.sleep(interval - 0.2)` (a `ValueError` escapes here if the argument is
negative).  An exhausted trace models an observation horizon, not loop exit. -/
def log_statistics (fileBound : Bool) (interval : ℚ) (ncores : ℕ) :
    List Tick → List Str × Option PyExc
  | [] => ([], none)
  | t :: rest =>
    match t.poll with
    | some _ => ([], none)
    | none =>
      match get_cpu_and_memory t.topOut ncores with
      | none => ([], some PyExc.sampleError)
      | some cm =>
        if fileBound then
          if sleepArg interval < 0 then ([sample_row t cm], some PyExc.sleepValueError)
          else
            (sample_row t cm :: (log_statistics fileBound interval ncores rest).1,
              (log_statistics fileBound interval ncores rest).2)
        else ([], some PyExc.nameError)

/-- The header row `'\t'.join(['TIME', 'VMS', 'RSS', '%CPU', 'FD'])`. -/
def headerLine : Str :=
  joinTabs ["TIME".toList, "VMS".toList, "RSS".toList, "%CPU".toList, "FD".toList]

/-- The state the `__main__` block starts from and the trace it will observe. -/
structure MainEnv where
  /-- Whether `subprocess.Popen(proc_name)` succeeds. -/
  launchOk : Bool
  /-- `os.path.exists(filename)` at startup. -/
  fileExists : Bool
  /-- Lines already in the log file when it exists. -/
  existing : List Str
  /-- The trace of scheduler ticks. -/
  ticks : List Tick
  /-- CLI `interval` argument. -/
  interval : ℚ
  /-- `os.cpu_count()`. -/
  ncores : ℕ

/-- The log file before `__main__` runs: `none` when it does not exist. -/
def initialFile (env : MainEnv) : Option (List Str) :=
  if env.fileExists then some env.existing else none

/-- The `__main__` block: launch the process (`Popen` raising stops everything
before any file is touched), then open the log in append mode — writing the
header row first only when the file did not exist — and run `log_statistics`
with the module-level `file` bound.  Returns the final log-file state (`none`
if it was never created) and the escaping exception, if any. -/
def main_block (env : MainEnv) : Option (List Str) × Option PyExc :=
  if env.launchOk then
    if env.fileExists then
      (some (env.existing ++ (log_statistics true env.interval env.ncores env.ticks).1),
        (log_statistics true env.interval env.ncores env.ticks).2)
    else
      (some (headerLine :: (log_statistics true env.interval env.ncores env.ticks).1),
        (log_statistics true env.interval env.ncores env.ticks).2)
  else (initialFile env, some PyExc.launchError)

/-- A `top` output whose final report has the column header line but no value
row for the pid: the process exited between the liveness check and extraction. -/
def topNoRow : Str := "top - up 1 min\n\nPID USER %CPU VIRT RES\n".toList

/-- A well-formed `top` output: header line and matching value row (with a
comma decimal separator in the %CPU column, as a comma-decimal locale emits). -/
def topGood : Str := "PID VIRT RES %CPU\n7 2048 1024 50,0\n".toList

/-- A `top` output whose header row has five tokens but whose value row has
only four: the token counts of the two lines disagree. -/
def topMisaligned : Str := "PID VIRT RES %CPU CMD\n123 100 50 7,5\n".toList

/-- A tick at which the process is still running but `top` no longer reports
a value row for it. -/
def tickNoRow : Tick := ⟨none, topNoRow, fdListing ["0".toList, "1".toList], "t1".toList⟩

/-- A tick with a fully well-formed `top` report. -/
def tickGood : Tick := ⟨none, topGood, fdListing ["0".toList, "1".toList, "2".toList], "t2".toList⟩

/-- A second well-formed live tick. -/
def tickGood2 : Tick := ⟨none, topGood, fdListing ["0".toList], "t3".toList⟩

/-- A tick at which `proc.poll()` reports the process exited with status 0. -/
def tickExited : Tick := ⟨some 0, topGood, fdListing ["0".toList], "t4".toList⟩

/-- A start state with no pre-existing log file and a successful launch. -/
def envNew : MainEnv := ⟨true, false, [], [tickGood, tickExited], 1, 2⟩

/-- A start state with a pre-existing log file and a successful launch. -/
def envExisting : MainEnv := ⟨true, true, ["old line".toList], [tickGood, tickExited], 1, 2⟩

/-- A start state in which `subprocess.Popen` fails and no log file exists. -/
def envLaunchFail : MainEnv := ⟨false, false, [], [tickGood, tickExited], 1, 2⟩

/-! ## Helper lemmas -/

theorem pyround_nonneg (q : ℚ) (h : 0 ≤ q) : 0 ≤ pyround q := by
  have h0 : 0 ≤ ⌊q⌋ := Int.floor_nonneg.mpr h
  unfold pyround
  split_ifs <;> omega

theorem pyround_le_of_le (q : ℚ) (B : ℤ) (h : q ≤ (B : ℚ)) : pyround q ≤ B := by
  have hfB : ⌊q⌋ ≤ B := by
    have h1 := Int.floor_mono h
    simpa using h1
  have hkey : ¬ (q - ⌊q⌋ < 1/2) → ⌊q⌋ + 1 ≤ B := by
    intro hfr
    push_neg at hfr
    have hfl : (⌊q⌋ : ℚ) + 1/2 ≤ q := by linarith
    have hlt : (⌊q⌋ : ℚ) < (B : ℚ) := by linarith
    exact Int.add_one_le_iff.mpr (by exact_mod_cast hlt)
  unfold pyround
  split_ifs with h1 h2 h3
  · exact hfB
  · exact hkey h1
  · exact hfB
  · exact hkey h1

theorem pyDictGet_map_set (d : List (Str × Str)) (k' v k : Str) :
    pyDictGet (d.map (fun p => if p.1 = k' then (p.1, v) else p)) k =
      if k = k' ∧ pyDictHasKey d k = true then some v else pyDictGet d k := by
  induction d with
  | nil => simp [pyDictGet, pyDictHasKey]
  | cons p d ih =>
    by_cases hpk : p.1 = k
    · by_cases hkk : k = k'
      · have hpk' : p.1 = k' := hpk.trans hkk
        simp [pyDictGet, pyDictHasKey, hpk, hpk', hkk]
      · have hpk' : ¬ p.1 = k' := fun hh => hkk (hpk.symm.trans hh)
        simp [pyDictGet, pyDictHasKey, hpk, hpk', hkk]
    · by_cases hpk' : p.1 = k'
      · have hk'k : ¬ k' = k := fun h => hpk (hpk'.trans h)
        have hkk : ¬ k = k' := fun h => hk'k h.symm
        simp [pyDictGet, pyDictHasKey, hpk, hpk', hk'k, hkk, ih]
      · simp [pyDictGet, pyDictHasKey, hpk, hpk', ih]

theorem pyDictGet_append (d l : List (Str × Str)) (k : Str) :
    pyDictGet (d ++ l) k =
      match pyDictGet d k with | some v => some v | none => pyDictGet l k := by
  induction d with
  | nil => simp [pyDictGet]
  | cons p d ih =>
    by_cases hpk : p.1 = k <;> simp [pyDictGet, hpk, ih]

theorem pyDictGet_eq_none (d : List (Str × Str)) (k : Str) (h : pyDictHasKey d k = false) :
    pyDictGet d k = none := by
  induction d with
  | nil => simp [pyDictGet]
  | cons p d ih =>
    simp only [pyDictHasKey, Bool.or_eq_false_iff, decide_eq_false_iff_not] at h
    simp [pyDictGet, h.1, ih h.2]

theorem pyDictGet_set (d : List (Str × Str)) (k' v k : Str) :
    pyDictGet (pyDictSet d k' v) k = if k = k' then some v else pyDictGet d k := by
  unfold pyDictSet
  by_cases hk : pyDictHasKey d k' = true
  · rw [if_pos hk, pyDictGet_map_set]
    by_cases hkk : k = k'
    · subst hkk
      simp [hk]
    · simp [hkk]
  · rw [if_neg hk, pyDictGet_append]
    have hnone : pyDictGet d k' = none :=
      pyDictGet_eq_none d k' (by simpa using hk)
    by_cases hkk : k = k'
    · subst hkk
      simp [hnone, pyDictGet]
    · have hk'k : ¬ k' = k := fun h => hkk h.symm
      cases hdk : pyDictGet d k with
      | some v' => simp [hkk]
      | none => simp [pyDictGet, hkk, hk'k]

theorem pyDictGet_build (idx : List ℕ) (fK fV : ℕ → Str) (d : List (Str × Str)) (k : Str) :
    pyDictGet (idx.foldl (fun d i => pyDictSet d (fK i) (fV i)) d) k =
      match dictLastLookup (idx.map (fun i => (fK i, fV i))) k with
      | some v => some v
      | none => pyDictGet d k := by
  induction idx generalizing d with
  | nil => simp [dictLastLookup]
  | cons i idx ih =>
    rw [List.foldl_cons, ih, pyDictGet_set]
    simp only [List.map_cons, dictLastLookup]
    cases dictLastLookup (idx.map (fun i => (fK i, fV i))) k with
    | some v => simp
    | none =>
      by_cases hkk : fK i = k
      · simp [hkk]
      · have hkk' : ¬ k = fK i := fun h => hkk h.symm
        simp [hkk, hkk']

theorem splitAux_sep (c : Char) (e : List Char) (rest acc : List Char) (he : c ∉ e) :
    splitAux c (e ++ c :: rest) acc = (acc.reverse ++ e) :: splitAux c rest [] := by
  induction e generalizing acc with
  | nil => simp [splitAux]
  | cons x e ih =>
    have hxc : ¬ x = c := fun hx => he (by simp [hx])
    have he' : c ∉ e := fun hc => he (List.mem_cons_of_mem x hc)
    calc splitAux c ((x :: e) ++ c :: rest) acc
        = splitAux c (e ++ c :: rest) (x :: acc) := by simp [splitAux, hxc]
      _ = ((x :: acc).reverse ++ e) :: splitAux c rest [] := ih (x :: acc) he'
      _ = (acc.reverse ++ x :: e) :: splitAux c rest [] := by simp

theorem pySplit_fdListing (entries : List Str) (h : ∀ e ∈ entries, '\n' ∉ e) :
    pySplit '\n' (fdListing entries) = entries ++ [[]] := by
  induction entries with
  | nil => simp [fdListing, pySplit, splitAux]
  | cons e es ih =>
    have h1 : '\n' ∉ e := h e (List.mem_cons_self e es)
    have h2 : ∀ x ∈ es, '\n' ∉ x := fun x hx => h x (List.mem_cons_of_mem e hx)
    have hexp : fdListing (e :: es) = e ++ '\n' :: fdListing es := by
      simp [fdListing]
    rw [hexp]
    unfold pySplit
    rw [splitAux_sep '\n' e (fdListing es) [] h1]
    rw [show splitAux '\n' (fdListing es) [] = pySplit '\n' (fdListing es) from rfl, ih h2]
    simp

/-! ## Claim theorems -/

/-- C1, counterexample: at a tick where the process is still reported running
(`poll = none`) but `top`'s output has no matching value row (`topNoRow`), the
claim predicts a silent skip with the loop continuing; instead an exception
(`KeyError` from `stats['VIRT']`) escapes `log_statistics` — the second, fully
well-formed live tick is never processed and nothing at all is logged. -/
theorem c1_skip_counterexample :
    (log_statistics true 1 2 [tickNoRow, tickGood]).2 ≠ none ∧
    (log_statistics true 1 2 [tickNoRow, tickGood]).1 = [] := by
  with_unfolding_all decide

/-- C1, amended: if the monitored process exits between the liveness check and
extraction, so that `get_cpu_and_memory` fails on that tick's `top` output
(missing `VIRT`/`RES`/`%CPU` key or unparsable value), the resulting
`KeyError`/`ValueError` propagates out of `log_statistics` and terminates
monitoring at once: nothing is written for that tick or any later tick. -/
theorem c1_exit_mid_extraction (interval : ℚ) (ncores : ℕ) (t : Tick) (rest : List Tick)
    (hp : t.poll = none) (hf : get_cpu_and_memory t.topOut ncores = none) :
    log_statistics true interval ncores (t :: rest) = ([], some PyExc.sampleError) := by
  simp [log_statistics, hp, hf]

/-- Witness for `c1_exit_mid_extraction` at the concrete no-value-row tick. -/
theorem c1_exit_mid_extraction_witness :
    log_statistics true 1 2 (tickNoRow :: [tickGood]) = ([], some PyExc.sampleError) :=
  c1_exit_mid_extraction 1 2 tickNoRow [tickGood] rfl (by with_unfolding_all decide)

/-- C2, counterexample: at `interval_seconds = 1/10` the claim predicts a sleep
argument of `max(0, 1/10 - 0.2) = 0`; the code's actual `time.sleep` argument
`interval - 0.2` is `-1/10`: negative, and different from the claimed value. -/
theorem c2_sleep_counterexample :
    sleepArg (1/10) < 0 ∧ sleepArg (1/10) ≠ max 0 ((1/10 : ℚ) - 0.2) := by
  have hm : max (0:ℚ) ((1/10 : ℚ) - 0.2) = 0 := by
    rw [max_eq_left]
    norm_num
  rw [hm]
  norm_num [sleepArg]

/-- C2, amended: the per-tick sleep argument is `interval_seconds - 0.2` with
no clamping.  It coincides with `max(0, interval - 0.2)` only when
`interval ≥ 0.2`; when `interval < 0.2` it is negative and `time.sleep` raises
`ValueError`, which escapes after the first sample row has been written. -/
theorem c2_sleep_no_clamp (q : ℚ) :
    ((1/5 : ℚ) ≤ q → sleepArg q = max 0 (q - 1/5)) ∧
    (q < 1/5 → sleepArg q < 0 ∧
      ∀ (ncores : ℕ) (t : Tick) (rest : List Tick) (cm : List Str),
        t.poll = none → get_cpu_and_memory t.topOut ncores = some cm →
          log_statistics true q ncores (t :: rest) =
            ([sample_row t cm], some PyExc.sleepValueError)) := by
  have h02 : (0.2 : ℚ) = 1/5 := by norm_num
  constructor
  · intro h
    rw [max_eq_right (by linarith)]
    rw [sleepArg, h02]
  · intro h
    have hneg : sleepArg q < 0 := by
      rw [sleepArg, h02]
      linarith
    refine ⟨hneg, ?_⟩
    intro ncores t rest cm hp hcm
    simp [log_statistics, hp, hcm, hneg]

/-- Witness for `c2_sleep_no_clamp` at the concrete interval `1/2`. -/
theorem c2_sleep_no_clamp_witness : sleepArg (1/2) = max 0 ((1/2 : ℚ) - 1/5) :=
  (c2_sleep_no_clamp (1/2)).1 (by norm_num)

/-- C3: for a valid running process — the parsed `top` row yields VIRT, RES
and %CPU values with VIRT, RES ≥ 0 and raw %CPU between 0 and 100 times the
logical core count (≥ 1) — `get_cpu_and_memory`'s sample satisfies
VMS_MB ≥ 0, RSS_MB ≥ 0 and CPU_PERCENT ∈ [0, 100]. -/
theorem c3_sample_bounds (stdout : Str) (ncores : ℕ) (v r c : ℚ)
    (hn : 1 ≤ ncores)
    (hv : virtValue stdout = some v) (hr : resValue stdout = some r)
    (hc : cpuValue stdout = some c)
    (hv0 : 0 ≤ v) (hr0 : 0 ≤ r) (hc0 : 0 ≤ c) (hcU : c ≤ 100 * ncores) :
    cpuMemValues stdout ncores =
      some (pyround (v / 1024), pyround (r / 1024), pyround (c / (ncores : ℚ))) ∧
    0 ≤ pyround (v / 1024) ∧ 0 ≤ pyround (r / 1024) ∧
    0 ≤ pyround (c / (ncores : ℚ)) ∧ pyround (c / (ncores : ℚ)) ≤ 100 := by
  have hnz : ncores ≠ 0 := by omega
  have hpos : (0 : ℚ) < (ncores : ℚ) := by exact_mod_cast Nat.pos_of_ne_zero hnz
  refine ⟨?_, ?_, ?_, ?_, ?_⟩
  · simp [cpuMemValues, hnz, hv, hr, hc]
  · exact pyround_nonneg _ (div_nonneg hv0 (by norm_num))
  · exact pyround_nonneg _ (div_nonneg hr0 (by norm_num))
  · exact pyround_nonneg _ (div_nonneg hc0 (le_of_lt hpos))
  · apply pyround_le_of_le
    rw [div_le_iff₀ hpos]
    push_cast
    linarith

/-- Witness for `c3_sample_bounds` on the concrete well-formed `top` output
(`VIRT = 2048` KB, `RES = 1024` KB, `%CPU = "50,0"`, two logical cores). -/
theorem c3_sample_bounds_witness :
    cpuMemValues topGood 2 =
      some (pyround ((2048 : ℚ) / 1024), pyround ((1024 : ℚ) / 1024),
        pyround ((50 : ℚ) / ((2 : ℕ) : ℚ))) ∧
    0 ≤ pyround ((2048 : ℚ) / 1024) ∧ 0 ≤ pyround ((1024 : ℚ) / 1024) ∧
    0 ≤ pyround ((50 : ℚ) / ((2 : ℕ) : ℚ)) ∧ pyround ((50 : ℚ) / ((2 : ℕ) : ℚ)) ≤ 100 :=
  c3_sample_bounds topGood 2 2048 1024 50 (by norm_num)
    (by with_unfolding_all decide) (by with_unfolding_all decide)
    (by with_unfolding_all decide)
    (by norm_num) (by norm_num) (by norm_num) (by norm_num)

/-- C4: whenever the parsed statistics mapping yields VIRT and RES values and
a raw %CPU string, `get_cpu_and_memory` returns exactly
`round(VIRT_KB / 1024)`, `round(RES_KB / 1024)` and
`round(raw_cpu / cpu_count)` (stringified), where the raw %CPU string has any
comma decimal separator normalized to `'.'` before parsing — in particular
`"12,5"` parses to `25/2 = 12.5` before any arithmetic. -/
theorem c4_unit_normalization (stdout : Str) (ncores : ℕ) (v r cq : ℚ) (sc : Str)
    (hn : 1 ≤ ncores)
    (hv : virtValue stdout = some v) (hr : resValue stdout = some r)
    (hsc : pyDictGet (_parse_top_stdout stdout) "%CPU".toList = some sc)
    (hc : pyfloat (replaceChar ',' '.' sc) = some cq) :
    cpuMemValues stdout ncores =
      some (pyround (v / 1024), pyround (r / 1024), pyround (cq / (ncores : ℚ))) ∧
    get_cpu_and_memory stdout ncores =
      some [intToStr (pyround (v / 1024)), intToStr (pyround (r / 1024)),
        intToStr (pyround (cq / (ncores : ℚ)))] ∧
    pyfloat (replaceChar ',' '.' "12,5".toList) = some (25 / 2) := by
  have hnz : ncores ≠ 0 := by omega
  have hcv : cpuValue stdout = some cq := by
    unfold cpuValue
    rw [hsc]
    simp [hc]
  have h1 : cpuMemValues stdout ncores =
      some (pyround (v / 1024), pyround (r / 1024), pyround (cq / (ncores : ℚ))) := by
    simp [cpuMemValues, hnz, hv, hr, hcv]
  refine ⟨h1, ?_, ?_⟩
  · simp [get_cpu_and_memory, h1]
  · with_unfolding_all decide

/-- Witness for `c4_unit_normalization` on the concrete `top` output whose
%CPU column reads `"50,0"`. -/
theorem c4_unit_normalization_witness :
    cpuMemValues topGood 2 =
      some (pyround ((2048 : ℚ) / 1024), pyround ((1024 : ℚ) / 1024),
        pyround ((50 : ℚ) / ((2 : ℕ) : ℚ))) ∧
    get_cpu_and_memory topGood 2 =
      some [intToStr (pyround ((2048 : ℚ) / 1024)), intToStr (pyround ((1024 : ℚ) / 1024)),
        intToStr (pyround ((50 : ℚ) / ((2 : ℕ) : ℚ)))] ∧
    pyfloat (replaceChar ',' '.' "12,5".toList) = some (25 / 2) :=
  c4_unit_normalization topGood 2 2048 1024 50 "50,0".toList (by norm_num)
    (by with_unfolding_all decide) (by with_unfolding_all decide)
    (by with_unfolding_all decide) (by with_unfolding_all decide)

/-- C5: once `proc.poll()` reports the process exited (tick `t`), the loop
emits no further samples and terminates at that very tick: the run over
`pre ++ t :: post` returns normally, with exactly one row per live tick of
`pre`, writes no final partial sample for `t`, and is entirely independent of
`post` — the RUNNING→STOPPED transition is never reversed. -/
theorem c5_stop_on_exit (interval : ℚ) (ncores : ℕ) (pre post : List Tick) (t : Tick)
    (hpre : ∀ p ∈ pre, p.poll = none ∧ (get_cpu_and_memory p.topOut ncores).isSome)
    (hs : 0 ≤ sleepArg interval) (ht : t.poll ≠ none) :
    (log_statistics true interval ncores (pre ++ t :: post)).1.length = pre.length ∧
    (log_statistics true interval ncores (pre ++ t :: post)).2 = none ∧
    log_statistics true interval ncores (pre ++ t :: post) =
      log_statistics true interval ncores (pre ++ [t]) := by
  have hns : ¬ sleepArg interval < 0 := not_lt.mpr hs
  induction pre with
  | nil =>
    cases hpoll : t.poll with
    | none => exact absurd hpoll ht
    | some e => simp [log_statistics, hpoll]
  | cons p pre ih =>
    obtain ⟨hp, hsm⟩ := hpre p (List.mem_cons_self p pre)
    obtain ⟨cm, hcm⟩ := Option.isSome_iff_exists.mp hsm
    obtain ⟨ih1, ih2, ih3⟩ := ih (fun q hq => hpre q (List.mem_cons_of_mem p hq))
    have ih1' : (log_statistics true interval ncores (pre ++ [t])).1.length = pre.length := by
      rw [← ih3]
      exact ih1
    have ih2' : (log_statistics true interval ncores (pre ++ [t])).2 = none := by
      rw [← ih3]
      exact ih2
    refine ⟨?_, ?_, ?_⟩ <;>
      simp [log_statistics, hp, hcm, hns, ih1, ih2, ih3, ih1', ih2']

/-- Witness for `c5_stop_on_exit`: one good live tick, then an exited tick,
with a further live tick after it that is provably never consulted. -/
theorem c5_stop_on_exit_witness :
    (log_statistics true 1 2 ([tickGood] ++ tickExited :: [tickGood2])).1.length =
      [tickGood].length ∧
    (log_statistics true 1 2 ([tickGood] ++ tickExited :: [tickGood2])).2 = none ∧
    log_statistics true 1 2 ([tickGood] ++ tickExited :: [tickGood2]) =
      log_statistics true 1 2 ([tickGood] ++ [tickExited]) :=
  c5_stop_on_exit 1 2 [tickGood] [tickGood2] tickExited
    (by with_unfolding_all decide) (by norm_num [sleepArg]) (by with_unfolding_all decide)

/-- C6: with a successful launch, if the log file did not exist the final file
is exactly one header row (`TIME`, `VMS`, `RSS`, `%CPU`, `FD` joined by tabs)
followed by the data rows of the run; if it did exist, no header row is
written and the data rows are appended after the pre-existing content. -/
theorem c6_header_once (env : MainEnv) (h : env.launchOk = true) :
    (env.fileExists = false →
      (main_block env).1 =
        some (headerLine :: (log_statistics true env.interval env.ncores env.ticks).1)) ∧
    (env.fileExists = true →
      (main_block env).1 =
        some (env.existing ++ (log_statistics true env.interval env.ncores env.ticks).1)) := by
  constructor <;> intro hf <;> simp [main_block, h, hf]

/-- Witness for `c6_header_once` on the concrete fresh-file start state. -/
theorem c6_header_once_witness :
    (main_block envNew).1 =
      some (headerLine :: (log_statistics true envNew.interval envNew.ncores envNew.ticks).1) :=
  (c6_header_once envNew rfl).1 rfl

/-- C7: `get_fd_count` on an empty `ls` capture (inaccessible fd directory:
process gone or permission denied) returns 0 — it is a total function, so no
exception can abort the scheduler — and on a readable listing of non-empty
entry names it returns exactly the number of entries. -/
theorem c7_fd_count (entries : List Str) (h : ∀ e ∈ entries, e ≠ [] ∧ '\n' ∉ e) :
    get_fd_count [] = 0 ∧ get_fd_count (fdListing entries) = entries.length := by
  constructor
  · rfl
  · unfold get_fd_count
    rw [pySplit_fdListing entries (fun e he => (h e he).2)]
    rw [List.filter_append]
    have h0 : List.filter (fun t => !t.isEmpty) [([] : Str)] = [] := by simp
    have hall : List.filter (fun t => !t.isEmpty) entries = entries := by
      apply List.filter_eq_self.mpr
      intro e he
      simpa using (h e he).1
    rw [h0, hall, List.append_nil]

/-- Witness for `c7_fd_count` on a concrete three-entry fd listing. -/
theorem c7_fd_count_witness :
    get_fd_count [] = 0 ∧
    get_fd_count (fdListing ["0".toList, "1".toList, "2".toList]) = 3 :=
  c7_fd_count ["0".toList, "1".toList, "2".toList] (by decide)

/-- C8: if `subprocess.Popen` fails, `__main__` stops before any file-system
side effect: the log file keeps its initial state — in particular it is never
created when it did not exist — and the launch error is reported. -/
theorem c8_no_log_on_launch_failure (env : MainEnv) (h : env.launchOk = false) :
    (main_block env).1 = initialFile env ∧
    (main_block env).2 = some PyExc.launchError ∧
    (env.fileExists = false → (main_block env).1 = none) := by
  refine ⟨?_, ?_, ?_⟩
  · simp [main_block, h]
  · simp [main_block, h]
  · intro hf
    simp [main_block, h, initialFile, hf]

/-- Witness for `c8_no_log_on_launch_failure` on the concrete failing-launch
start state. -/
theorem c8_no_log_on_launch_failure_witness :
    (main_block envLaunchFail).1 = initialFile envLaunchFail ∧
    (main_block envLaunchFail).2 = some PyExc.launchError ∧
    (envLaunchFail.fileExists = false → (main_block envLaunchFail).1 = none) :=
  c8_no_log_on_launch_failure envLaunchFail rfl

/-- C9, counterexample: the claim says every call of `log_statistics` without
a module-level `file` bound fails with `NameError`; but when the very first
liveness check already sees the process exited, the loop body never runs and
the call returns normally — no `NameError`, no exception at all. -/
theorem c9_counterexample : log_statistics false 1 1 [tickExited] = ([], none) := by
  with_unfolding_all decide

/-- C9, amended: `log_statistics` writes through the free module-level name
`file`, which is not among its parameters; a call without such a binding
raises `NameError` before any sample is emitted whenever the first tick still
sees the process running and sample extraction succeeds (if the process has
already exited at the first check, the loop body never executes and the call
returns without error).  Binding the global, as the `__main__` with-open
blocks do, is an unstated precondition for any productive call. -/
theorem c9_global_file (interval : ℚ) (ncores : ℕ) (t : Tick) (rest : List Tick)
    (hp : t.poll = none) (hsm : (get_cpu_and_memory t.topOut ncores).isSome) :
    log_statistics false interval ncores (t :: rest) = ([], some PyExc.nameError) := by
  obtain ⟨cm, hcm⟩ := Option.isSome_iff_exists.mp hsm
  simp [log_statistics, hp, hcm]

/-- Witness for `c9_global_file` at a concrete live, well-formed tick. -/
theorem c9_global_file_witness :
    log_statistics false 1 2 (tickGood :: []) = ([], some PyExc.nameError) :=
  c9_global_file 1 2 tickGood [] rfl (by with_unfolding_all decide)

/-- C10: `_parse_top_stdout` builds its mapping purely positionally — looking
up any key in the built dict agrees with a last-wins lookup over exactly the
pairs `res[i] -> res[len(res)/2 + i]`, `i < len(res)/2`, of the concatenated
token list of the last two lines — and on a concrete output whose header row
has five tokens but whose value row has four, keys are silently paired with
misaligned values (VIRT receives the pid column's value) and the trailing
token is dropped, with no validation error. -/
theorem c10_positional_pairing :
    (∀ (stdout : Str) (k : Str),
        pyDictGet (_parse_top_stdout stdout) k =
          dictLastLookup (claimPairs (resTokens stdout)) k) ∧
    _parse_top_stdout topMisaligned =
      [("PID".toList, "CMD".toList), ("VIRT".toList, "123".toList),
        ("RES".toList, "100".toList), ("%CPU".toList, "50".toList)] := by
  constructor
  · intro stdout k
    have h := pyDictGet_build (List.range ((resTokens stdout).length / 2))
      (fun i => (resTokens stdout).getD i [])
      (fun i => (resTokens stdout).getD ((resTokens stdout).length / 2 + i) []) [] k
    rw [show _parse_top_stdout stdout =
        (List.range ((resTokens stdout).length / 2)).foldl
          (fun d i => pyDictSet d ((resTokens stdout).getD i [])
            ((resTokens stdout).getD ((resTokens stdout).length / 2 + i) [])) []
      from rfl]
    rw [h]
    rw [show claimPairs (resTokens stdout) =
        (List.range ((resTokens stdout).length / 2)).map
          (fun i => ((resTokens stdout).getD i [],
            (resTokens stdout).getD ((resTokens stdout).length / 2 + i) []))
      from rfl]
    cases dictLastLookup ((List.range ((resTokens stdout).length / 2)).map
        (fun i => ((resTokens stdout).getD i [],
          (resTokens stdout).getD ((resTokens stdout).length / 2 + i) []))) k with
    | some v => simp
    | none => simp [pyDictGet]
  · with_unfolding_all decide
